import Mathlib

/-!
# Verification of the audio-reactive snowfall core

Shallow embedding of the audio-to-visual feedback loop of the repository:
the loudness extractor and parameter mapper of the page component
(`src/unnamed/part_000`), and the particle-field simulator of the two
`SnowField` variants (`src/unnamed/part_002` and
`src/app/components/SnowField.tsx`).

Numbers are modeled as rationals (the JS `number` arithmetic idealized as
exact arithmetic).  Calls to the browser `Math` library (`Math.cos`,
`Math.sin`, `Math.sqrt`, `Math.PI`) are abstracted as a record of
rational-valued functions `JsMath`; theorems that need analytic facts about
them (the Pythagorean bound, `sqrt` being a nonnegative square root) take
those facts as hypotheses.  `Math.random()` is modeled as an ambient draw
stream `rand : ℕ → ℚ`, consumed in exactly the order the source consumes
draws; uniformity of draws is a property of the stream, not of the code,
so theorems quantify over arbitrary streams with draws in `[0, 1)`.
-/

/-- One particle of a `SnowField`: the three consecutive entries
`array[3i], array[3i+1], array[3i+2]` of the flat `Float32Array`
position buffer. -/
structure Particle where
  x : ℚ
  y : ℚ
  z : ℚ
  deriving Repr, DecidableEq

/-- The browser `Math` functions the snowfall code calls, abstracted as
rational-valued functions (`Math.cos`, `Math.sin`, `Math.sqrt`) and the
constant `Math.PI`. -/
structure JsMath where
  cos : ℚ → ℚ
  sin : ℚ → ℚ
  sqrt : ℚ → ℚ
  PI : ℚ

/-- A trivial instance of the `Math` record, used to evaluate the
simulation on concrete inputs ( `cos = 1`, `sin = 0`, `sqrt = 0`,
`PI = 3.14159` ).  It satisfies the analytic hypotheses the invariant
theorems assume: `cos² + sin² ≤ 1` and `0 ≤ sqrt u`, `(sqrt u)² ≤ u`. -/
def jsMath0 : JsMath :=
  { cos := fun _ => 1, sin := fun _ => 0, sqrt := fun _ => 0, PI := 3.14159 }

namespace Part002

/-- `randomBetween` of `src/unnamed/part_002` (and of `SnowField.tsx`):
`Math.random() * (max - min) + min`, with the draw `u` supplied
explicitly. -/
def randomBetween (min max u : ℚ) : ℚ :=
  u * (max - min) + min

/-- The `positions` initializer of `src/unnamed/part_002` (lines 73–99):
for each of `count` particles, sample `theta = Math.random()*Math.PI*2`,
`r = Math.sqrt(Math.random()) * (areaSize/2)`, set
`x = cos(theta)*r`, `y = randomBetween(0, height)`, `z = sin(theta)*r`.
Particle `i` consumes draws `3i, 3i+1, 3i+2` of the stream, in the order
the source calls `Math.random()`. -/
def positions (M : JsMath) (count : ℕ) (areaSize height : ℚ) (rand : ℕ → ℚ) :
    List Particle :=
  (List.range count).map (fun i =>
    let radius := areaSize / 2
    let theta := rand (3 * i) * M.PI * 2
    let r := M.sqrt (rand (3 * i + 1)) * radius
    { x := M.cos theta * r
      y := randomBetween 0 height (rand (3 * i + 2))
      z := M.sin theta * r })

/-- The `useFrame` body of `src/unnamed/part_002` (lines 103–131): one pass
over the position buffer.  Each particle first gets `y -= fallSpeed*delta`;
if the new `y` is `< 0` the particle is recycled: `y = height` and fresh
`x = cos(theta)*r`, `z = sin(theta)*r` from two new draws.  The counter `k`
is the index of the next unconsumed draw, so draws are consumed in source
order (two per recycled particle, none otherwise). -/
def useFrameUpdate (M : JsMath) (areaSize height fallSpeed delta : ℚ)
    (rand : ℕ → ℚ) : ℕ → List Particle → List Particle
  | _, [] => []
  | k, p :: ps =>
    let y1 := p.y - fallSpeed * delta
    if y1 < 0 then
      let theta := rand k * M.PI * 2
      let radius := areaSize / 2
      let r := M.sqrt (rand (k + 1)) * radius
      { x := M.cos theta * r, y := height, z := M.sin theta * r }
        :: useFrameUpdate M areaSize height fallSpeed delta rand (k + 2) ps
    else
      { x := p.x, y := y1, z := p.z }
        :: useFrameUpdate M areaSize height fallSpeed delta rand k ps

/-- The flat `Float32Array` view of a particle list: `x, y, z` of each
particle in order, as the source's stride-3 buffer. -/
def toBuffer : List Particle → List ℚ
  | [] => []
  | p :: ps => p.x :: p.y :: p.z :: toBuffer ps

/-- Construction of a `SnowField` (`src/unnamed/part_002`, lines 26–99) as
seen by the caller.  The source performs no validation of `count`,
`areaSize` or `height`: the only way construction can fail is the typed
array allocation `new Float32Array(count * 3)`, which throws a `RangeError`
exactly when the requested length is negative.  Otherwise the position
buffer is filled and the field exists. -/
def snowFieldConstruct (M : JsMath) (count : ℤ) (areaSize height : ℚ)
    (rand : ℕ → ℚ) : Except String (List Particle) :=
  if count * 3 < 0 then
    Except.error "RangeError: invalid typed array length"
  else
    Except.ok (positions M count.toNat areaSize height rand)

/-- The full per-frame trajectory of a field: state `0` is the freshly
initialized `positions` buffer; state `n+1` is state `n` advanced by one
`useFrame` pass with that frame's `fallSpeed`, elapsed `delta` and draw
stream. -/
def framesState (M : JsMath) (count : ℕ) (areaSize height : ℚ)
    (initRand : ℕ → ℚ) (fallSpeed delta : ℕ → ℚ) (frameRand : ℕ → ℕ → ℚ) :
    ℕ → List Particle
  | 0 => positions M count areaSize height initRand
  | n + 1 =>
    useFrameUpdate M areaSize height (fallSpeed n) (delta n) (frameRand n) 0
      (framesState M count areaSize height initRand fallSpeed delta frameRand n)

/-- Number of particles among the first `i` that the current frame
recycles (those with `y - fallSpeed*delta < 0`); a recycled particle
consumes two draws, so particle `i` reads draws starting at index
`2 * recycledBefore`. -/
def recycledBefore (fallSpeed delta : ℚ) (l : List Particle) (i : ℕ) : ℕ :=
  ((l.take i).filter (fun p => decide (p.y - fallSpeed * delta < 0))).length

end Part002

namespace AppSnowField

/-- `randomBetween` of `src/app/components/SnowField.tsx`:
`Math.random() * (max - min) + min`. -/
def randomBetween (min max u : ℚ) : ℚ :=
  u * (max - min) + min

/-- The `positions` initializer of `src/app/components/SnowField.tsx`
(lines 39–66), embedded independently of the `part_002` variant so the two
can be compared. -/
def positions (M : JsMath) (count : ℕ) (areaSize height : ℚ) (rand : ℕ → ℚ) :
    List Particle :=
  (List.range count).map (fun i =>
    let radius := areaSize / 2
    let theta := rand (3 * i) * M.PI * 2
    let r := M.sqrt (rand (3 * i + 1)) * radius
    { x := M.cos theta * r
      y := randomBetween 0 height (rand (3 * i + 2))
      z := M.sin theta * r })

/-- The `useFrame` body of `src/app/components/SnowField.tsx` (lines
69–97), embedded independently of the `part_002` variant. -/
def useFrameUpdate (M : JsMath) (areaSize height fallSpeed delta : ℚ)
    (rand : ℕ → ℚ) : ℕ → List Particle → List Particle
  | _, [] => []
  | k, p :: ps =>
    let y1 := p.y - fallSpeed * delta
    if y1 < 0 then
      let theta := rand k * M.PI * 2
      let radius := areaSize / 2
      let r := M.sqrt (rand (k + 1)) * radius
      { x := M.cos theta * r, y := height, z := M.sin theta * r }
        :: useFrameUpdate M areaSize height fallSpeed delta rand (k + 2) ps
    else
      { x := p.x, y := y1, z := p.z }
        :: useFrameUpdate M areaSize height fallSpeed delta rand k ps

end AppSnowField

namespace Page

/-- `analyzer.fftSize = 1024` (`src/unnamed/part_000`, line 79). -/
def fftSize : ℕ := 1024

/-- `analyzer.frequencyBinCount`: per the Web Audio API this is
`fftSize / 2`; the data buffer is allocated with exactly this length
(`new ArrayBuffer(analyzer.frequencyBinCount)`). -/
def frequencyBinCount : ℕ := fftSize / 2

/-- The loudness computation inside `tick` (`src/unnamed/part_000`,
lines 97–112): sum the byte-frequency buffer, `avg = sum / array.length`,
`level = Math.min(1, Math.max(0, avg / 255))`.  The buffer entries are the
`Uint8Array` magnitudes (naturals `< 256`). -/
def instLevel (array : List ℕ) : ℚ :=
  let sum : ℚ := array.foldl (fun (s : ℚ) (v : ℕ) => s + (v : ℚ)) 0
  let avg := sum / (array.length : ℚ)
  min 1 (max 0 (avg / 255))

/-- The rolling-state update `setAudioLevel(prev => prev * 0.85 + level * 0.15)`
(`src/unnamed/part_000`, line 108). -/
def emaStep (prev level : ℚ) : ℚ :=
  prev * 0.85 + level * 0.15

/-- One `tick` of the extractor: read the current frequency buffer,
compute the instantaneous level, update the rolling state once. -/
def tick (state : ℚ) (array : List ℕ) : ℚ :=
  emaStep state (instLevel array)

/-- One animation frame of the extractor as mounted by the page component
(`src/unnamed/part_000`, lines 96–113): the `requestAnimationFrame` loop is
registered unconditionally in the mount effect and `tick` reschedules
itself; the callback never consults the playback state, so the `isPlaying`
flag does not appear in the computation. -/
def frameTick (_isPlaying : Bool) (state : ℚ) (array : List ℕ) : ℚ :=
  tick state array

/-- Rolling state after feeding a sequence of instantaneous levels through
the smoothing update, starting from `s0` (the state is reset to `0` at
initialization: `useState(0)`). -/
def foldEMA (s0 : ℚ) (levels : List ℚ) : ℚ :=
  levels.foldl emaStep s0

/-- `reactiveFallSpeed = 2.6 + 3.0 * audioLevel`
(`src/unnamed/part_000`, line 50). -/
def reactiveFallSpeed (audioLevel : ℚ) : ℚ :=
  2.6 + 3.0 * audioLevel

/-- `reactiveSnowSize = 0.8 + 0.5 * audioLevel`
(`src/unnamed/part_000`, line 51). -/
def reactiveSnowSize (audioLevel : ℚ) : ℚ :=
  0.8 + 0.5 * audioLevel

/-- `reactiveBloom = 1.75 + 0.9 * audioLevel`
(`src/unnamed/part_000`, line 52). -/
def reactiveBloom (audioLevel : ℚ) : ℚ :=
  1.75 + 0.9 * audioLevel

end Page

namespace Sprite

/-- A canvas radial gradient: interpolation over a list of
`(offset, alpha)` color stops, as the 2-D canvas specifies it — the first
stop's value before its offset, the last stop's value after its offset,
linear interpolation between consecutive stops. -/
def interpFrom (o1 c1 : ℚ) : List (ℚ × ℚ) → ℚ → ℚ
  | [], _ => c1
  | (o2, c2) :: rest, t =>
    if t ≤ o2 then c1 + (c2 - c1) * ((t - o1) / (o2 - o1))
    else interpFrom o2 c2 rest t

/-- Value of a stop list at normalized radial position `t`. -/
def interpStops : List (ℚ × ℚ) → ℚ → ℚ
  | [], _ => 0
  | (o1, c1) :: rest, t =>
    if t ≤ o1 then c1 else interpFrom o1 c1 rest t

/-- The mask image built by `spriteTexture` (`src/unnamed/part_002`,
lines 39–69): a square canvas of the given resolution (the source uses
`64`), filled with a radial gradient whose stops are
`(0.0, alpha 1.0)`, `(0.6, alpha 0.85)`, `(1.0, alpha 0.0)` — the color is
white at every stop, so only the alpha channel varies. -/
structure MaskImage where
  size : ℕ
  stops : List (ℚ × ℚ)
  deriving Repr, DecidableEq

/-- `generateMask`: the deterministic construction of the sprite mask at a
given resolution, per `spriteTexture` of `src/unnamed/part_002`.  The
gradient stops record the alpha of `rgba(255,255,255,a)` at each offset. -/
def generateMask (resolution : ℕ) : MaskImage :=
  { size := resolution
    stops := [(0, 1), (0.6, 0.85), (1, 0)] }

/-- Alpha of the mask at distance `d` from the canvas center: inside the
filled arc of radius `size/2` the gradient value at normalized offset
`d / (size/2)`; outside the arc the canvas stays cleared (alpha `0`). -/
def maskAlpha (m : MaskImage) (d : ℚ) : ℚ :=
  if d ≤ (m.size : ℚ) / 2 then interpStops m.stops (d / ((m.size : ℚ) / 2))
  else 0

/-- The resolution hard-coded by the source: `canvas.width = 64`. -/
def canvasResolution : ℕ := 64

end Sprite

/-- The cylindrical simulation volume of a `SnowField` with the given
configuration: `y` within `[0, height]`, horizontal position within the
disc of radius `areaSize / 2`. -/
def inVolume (areaSize height : ℚ) (p : Particle) : Prop :=
  0 ≤ p.y ∧ p.y ≤ height ∧ p.x ^ 2 + p.z ^ 2 ≤ (areaSize / 2) ^ 2

theorem foldl_add_cast (l : List ℕ) (a : ℚ) :
    l.foldl (fun (s : ℚ) (v : ℕ) => s + (v : ℚ)) a = a + (l.sum : ℚ) := by
  induction l generalizing a with
  | nil => simp
  | cons v vs ih => rw [List.foldl_cons, ih, List.sum_cons, Nat.cast_add]; ring

theorem instLevel_replicate_zero (n : ℕ) :
    Page.instLevel (List.replicate n 0) = 0 := by
  simp only [Page.instLevel, foldl_add_cast, List.sum_replicate, smul_zero,
    Nat.cast_zero, zero_add]
  norm_num

theorem positions_length (M : JsMath) (count : ℕ) (areaSize height : ℚ)
    (rand : ℕ → ℚ) :
    (Part002.positions M count areaSize height rand).length = count := by
  simp [Part002.positions]

theorem toBuffer_length (l : List Particle) :
    (Part002.toBuffer l).length = 3 * l.length := by
  induction l with
  | nil => simp [Part002.toBuffer]
  | cons p ps ih => simp [Part002.toBuffer, ih]; ring

theorem useFrameUpdate_length (M : JsMath) (areaSize height fallSpeed delta : ℚ)
    (rand : ℕ → ℚ) :
    ∀ (k : ℕ) (l : List Particle),
      (Part002.useFrameUpdate M areaSize height fallSpeed delta rand k l).length
        = l.length := by
  intro k l
  induction l generalizing k with
  | nil => simp [Part002.useFrameUpdate]
  | cons p ps ih =>
    simp only [Part002.useFrameUpdate]
    split
    · simp [ih]
    · simp [ih]

/-- Claim C3: the parameter mapper computes exactly
`fallSpeed = 2.6 + 3.0*s`, `particleSize = 0.8 + 0.5*s`,
`glowIntensity = 1.75 + 0.9*s`; for `s ∈ [0,1]` each output lies in its
`[base, base+range]` bound (`[2.6,5.6]`, `[0.8,1.3]`, `[1.75,2.65]`), and
each is monotonically non-decreasing in `s`. -/
theorem mapper_exact_bounded_monotone :
    (∀ s : ℚ, Page.reactiveFallSpeed s = 2.6 + 3.0 * s ∧
      Page.reactiveSnowSize s = 0.8 + 0.5 * s ∧
      Page.reactiveBloom s = 1.75 + 0.9 * s) ∧
    (∀ s : ℚ, 0 ≤ s → s ≤ 1 →
      (2.6 ≤ Page.reactiveFallSpeed s ∧ Page.reactiveFallSpeed s ≤ 5.6) ∧
      (0.8 ≤ Page.reactiveSnowSize s ∧ Page.reactiveSnowSize s ≤ 1.3) ∧
      (1.75 ≤ Page.reactiveBloom s ∧ Page.reactiveBloom s ≤ 2.65)) ∧
    (∀ s t : ℚ, s ≤ t →
      Page.reactiveFallSpeed s ≤ Page.reactiveFallSpeed t ∧
      Page.reactiveSnowSize s ≤ Page.reactiveSnowSize t ∧
      Page.reactiveBloom s ≤ Page.reactiveBloom t) := by
  refine ⟨fun s => ⟨rfl, rfl, rfl⟩, fun s h0 h1 => ?_, fun s t hst => ?_⟩ <;>
    simp only [Page.reactiveFallSpeed, Page.reactiveSnowSize, Page.reactiveBloom] <;>
    refine ⟨?_, ?_, ?_⟩ <;> try constructor
  all_goals nlinarith

/-- Witness for C3: the mapper bounds and monotonicity at the concrete
inputs `s = 1/2` and `0 ≤ 1`. -/
theorem mapper_exact_bounded_monotone_witness :
    ((0 : ℚ) ≤ 1/2 ∧ (1/2 : ℚ) ≤ 1) ∧
    (2.6 ≤ Page.reactiveFallSpeed (1/2) ∧ Page.reactiveFallSpeed (1/2) ≤ 5.6) ∧
    Page.reactiveBloom 0 ≤ Page.reactiveBloom 1 :=
  ⟨⟨by norm_num, by norm_num⟩,
   (mapper_exact_bounded_monotone.2.1 (1/2) (by norm_num) (by norm_num)).1,
   (mapper_exact_bounded_monotone.2.2 0 1 (by norm_num)).2.2⟩

/-- Claim C4: each frame the extractor averages the 512-entry frequency
buffer, normalizes by 255 and clamps to `[0,1]`, then performs exactly one
rolling-state update `state' = state*0.85 + instantaneous*0.15` (the frame
callback applies exactly one `emaStep`, whatever the playback flag is). -/
theorem tick_mean_clamp_ema :
    Page.frequencyBinCount = 512 ∧
    (∀ (playing : Bool) (state : ℚ) (array : List ℕ),
      Page.frameTick playing state array = Page.emaStep state (Page.instLevel array)) ∧
    (∀ (state : ℚ) (array : List ℕ), array.length = Page.frequencyBinCount →
      Page.tick state array =
        state * 0.85 + min 1 (max 0 (((array.sum : ℚ) / 512) / 255)) * 0.15) := by
  refine ⟨rfl, fun playing state array => rfl, fun state array h => ?_⟩
  have h512 : (array.length : ℚ) = 512 := by
    rw [h]; norm_num [Page.frequencyBinCount, Page.fftSize]
  simp only [Page.tick, Page.emaStep, Page.instLevel, foldl_add_cast, zero_add, h512]

/-- Witness for C4: the tick equation evaluated on a concrete 512-entry
buffer of magnitude 200 with rolling state `1/2`. -/
theorem tick_mean_clamp_ema_witness :
    (List.replicate 512 (200 : ℕ)).length = Page.frequencyBinCount ∧
    Page.tick (1/2) (List.replicate 512 (200 : ℕ)) =
      1/2 * 0.85 +
        min 1 (max 0 ((((List.replicate 512 (200 : ℕ)).sum : ℚ) / 512) / 255)) * 0.15 :=
  ⟨by rw [List.length_replicate]; rfl,
   tick_mean_clamp_ema.2.2 (1/2) (List.replicate 512 (200 : ℕ))
     (by rw [List.length_replicate]; rfl)⟩

/-- Counterexample to claim C5: starting the rolling state at its reset
value `0` and feeding the instantaneous sequence `[0,0,1,1,1,1,1,1]`
through `state' = state*0.85 + level*0.15` does NOT bring the state above
`0.95` by the 8th sample. -/
theorem convergence_scenario_counterexample :
    ¬ ((0.95 : ℚ) < Page.foldEMA 0 [0, 0, 1, 1, 1, 1, 1, 1]) := by
  norm_num [Page.foldEMA, Page.emaStep, List.foldl_cons, List.foldl_nil]

/-- Claim C5 (amended): starting from the reset value `0`, the sequence
`[0,0,1,1,1,1,1,1]` drives the rolling state to exactly
`1 - 0.85⁶ = 39862431/64000000 ≈ 0.623` by the 8th sample — above `0.6`,
but not above `0.95`. -/
theorem convergence_scenario_exact :
    Page.foldEMA 0 [0, 0, 1, 1, 1, 1, 1, 1] = 39862431 / 64000000 ∧
    (3/5 : ℚ) < Page.foldEMA 0 [0, 0, 1, 1, 1, 1, 1, 1] := by
  constructor <;> norm_num [Page.foldEMA, Page.emaStep, List.foldl_cons, List.foldl_nil]

/-- Counterexample to claim C6: with no session active
(`isPlaying = false`) the extractor's animation-frame callback still
updates the rolling state — a state of `1/2` facing a silent analyser
buffer is moved to `17/40`, not held at `1/2`. -/
theorem pause_freeze_counterexample :
    Page.frameTick false (1/2) (List.replicate Page.frequencyBinCount 0) ≠ 1/2 ∧
    Page.frameTick false (1/2) (List.replicate Page.frequencyBinCount 0) = 17/40 := by
  have h : Page.frameTick false (1/2) (List.replicate Page.frequencyBinCount 0) = 17/40 := by
    rw [Page.frameTick, Page.tick, instLevel_replicate_zero, Page.emaStep]
    norm_num
  exact ⟨by rw [h]; norm_num, h⟩

/-- Claim C6 (amended): the extractor's frame callback is registered at
mount and never consults the playback state, so every animation frame —
active session or not — performs the rolling-state update
`state' = state*0.85 + instantaneous*0.15`; in particular, with an
inactive session and a silent analyser buffer a positive state strictly
decays toward `0` instead of being held static. -/
theorem extractor_runs_regardless :
    (∀ (playing : Bool) (state : ℚ) (array : List ℕ),
      Page.frameTick playing state array = Page.emaStep state (Page.instLevel array)) ∧
    (∀ state : ℚ, 0 < state →
      Page.frameTick false state (List.replicate Page.frequencyBinCount 0) < state) := by
  refine ⟨fun playing state array => rfl, fun state hs => ?_⟩
  rw [Page.frameTick, Page.tick, instLevel_replicate_zero, Page.emaStep]
  nlinarith

/-- Witness for the amended C6 at the concrete state `1`. -/
theorem extractor_runs_regardless_witness :
    (0 : ℚ) < 1 ∧
    Page.frameTick false 1 (List.replicate Page.frequencyBinCount 0) < 1 :=
  ⟨by norm_num, extractor_runs_regardless.2 1 (by norm_num)⟩

/-- Claim C8: mask generation is deterministic — the same resolution
yields the identical image, pixel for pixel — and the radial gradient has
exactly the three declared control stops: alpha `1` at the center, alpha
`0.85` at 60% of the radius, alpha `0` at the rim. -/
theorem generateMask_deterministic_and_stops :
    (∀ res : ℕ, Sprite.generateMask res = Sprite.generateMask res ∧
      ∀ d : ℚ, Sprite.maskAlpha (Sprite.generateMask res) d =
        Sprite.maskAlpha (Sprite.generateMask res) d) ∧
    (Sprite.generateMask Sprite.canvasResolution).stops.length = 3 ∧
    (∀ res : ℕ, 0 < res →
      Sprite.maskAlpha (Sprite.generateMask res) 0 = 1 ∧
      Sprite.maskAlpha (Sprite.generateMask res) (3/5 * ((res : ℚ) / 2)) = 17/20 ∧
      Sprite.maskAlpha (Sprite.generateMask res) ((res : ℚ) / 2) = 0) := by
  refine ⟨fun res => ⟨rfl, fun d => rfl⟩, rfl, fun res hres => ?_⟩
  have hr : (0 : ℚ) < (res : ℚ) := by exact_mod_cast hres
  have hr2 : (0 : ℚ) < (res : ℚ) / 2 := by linarith
  have hne : ((res : ℚ) / 2) ≠ 0 := ne_of_gt hr2
  refine ⟨?_, ?_, ?_⟩
  · simp only [Sprite.maskAlpha, Sprite.generateMask]
    rw [if_pos (le_of_lt hr2)]
    simp [Sprite.interpStops]
  · have hle : (3/5 : ℚ) * ((res : ℚ) / 2) ≤ (res : ℚ) / 2 := by nlinarith
    simp only [Sprite.maskAlpha, Sprite.generateMask]
    rw [if_pos hle, mul_div_assoc, div_self hne, mul_one]
    norm_num [Sprite.interpStops, Sprite.interpFrom]
  · simp only [Sprite.maskAlpha, Sprite.generateMask]
    rw [if_pos (le_refl _), div_self hne]
    norm_num [Sprite.interpStops, Sprite.interpFrom]

/-- Witness for C8: the gradient stop values at the resolution the source
hard-codes (`canvas.width = 64`). -/
theorem generateMask_deterministic_and_stops_witness :
    0 < 64 ∧
    (Sprite.maskAlpha (Sprite.generateMask 64) 0 = 1 ∧
      Sprite.maskAlpha (Sprite.generateMask 64) (3/5 * (((64 : ℕ) : ℚ) / 2)) = 17/20 ∧
      Sprite.maskAlpha (Sprite.generateMask 64) (((64 : ℕ) : ℚ) / 2) = 0) :=
  ⟨by norm_num, generateMask_deterministic_and_stops.2.2 64 (by norm_num)⟩

/-- Claim C10: the two `SnowField` variants are the same simulation.
Given the same parameters and the same draw stream, the particle
initialization and the per-frame update of `src/app/components/SnowField.tsx`
and of `src/unnamed/part_002` produce identical position buffers; the
variants differ only in material and sprite appearance. -/
theorem snowfield_variants_equal :
    (∀ (M : JsMath) (count : ℕ) (areaSize height : ℚ) (rand : ℕ → ℚ),
      Part002.positions M count areaSize height rand =
        AppSnowField.positions M count areaSize height rand) ∧
    (∀ (M : JsMath) (areaSize height fallSpeed delta : ℚ) (rand : ℕ → ℚ)
        (k : ℕ) (l : List Particle),
      Part002.useFrameUpdate M areaSize height fallSpeed delta rand k l =
        AppSnowField.useFrameUpdate M areaSize height fallSpeed delta rand k l) := by
  constructor
  · intro M count areaSize height rand
    simp only [Part002.positions, AppSnowField.positions,
      Part002.randomBetween, AppSnowField.randomBetween]
  · intro M areaSize height fallSpeed delta rand k l
    induction l generalizing k with
    | nil => rfl
    | cons p ps ih =>
      simp only [Part002.useFrameUpdate, AppSnowField.useFrameUpdate]
      split
      · rw [ih]
      · rw [ih]

theorem recycledBefore_zero (fallSpeed delta : ℚ) (l : List Particle) :
    Part002.recycledBefore fallSpeed delta l 0 = 0 := by
  simp [Part002.recycledBefore]

theorem recycledBefore_cons_succ (fallSpeed delta : ℚ) (q : Particle)
    (qs : List Particle) (i : ℕ) :
    Part002.recycledBefore fallSpeed delta (q :: qs) (i + 1) =
      (if q.y - fallSpeed * delta < 0 then 1 else 0) +
        Part002.recycledBefore fallSpeed delta qs i := by
  simp only [Part002.recycledBefore, List.take_succ_cons, List.filter_cons,
    decide_eq_true_eq]
  by_cases h : q.y - fallSpeed * delta < 0
  · rw [if_pos h, if_pos h, List.length_cons, Nat.add_comm]
  · rw [if_neg h, if_neg h, Nat.zero_add]

theorem useFrameUpdate_getElem (M : JsMath) (areaSize height fallSpeed delta : ℚ)
    (rand : ℕ → ℚ) :
    ∀ (l : List Particle) (k i : ℕ) (p : Particle), l[i]? = some p →
      (Part002.useFrameUpdate M areaSize height fallSpeed delta rand k l)[i]? =
        some (if p.y - fallSpeed * delta < 0 then
          { x := M.cos (rand (k + 2 * Part002.recycledBefore fallSpeed delta l i) * M.PI * 2) *
                 (M.sqrt (rand (k + 2 * Part002.recycledBefore fallSpeed delta l i + 1)) *
                   (areaSize / 2))
            y := height
            z := M.sin (rand (k + 2 * Part002.recycledBefore fallSpeed delta l i) * M.PI * 2) *
                 (M.sqrt (rand (k + 2 * Part002.recycledBefore fallSpeed delta l i + 1)) *
                   (areaSize / 2)) }
        else { x := p.x, y := p.y - fallSpeed * delta, z := p.z }) := by
  intro l
  induction l with
  | nil => intro k i p hp; simp at hp
  | cons q qs ih =>
    intro k i p hp
    cases i with
    | zero =>
      rw [List.getElem?_cons_zero] at hp
      have hq := Option.some.inj hp
      rw [← hq]
      simp only [Part002.useFrameUpdate, recycledBefore_zero, Nat.mul_zero, Nat.add_zero]
      by_cases h : q.y - fallSpeed * delta < 0
      · rw [if_pos h, if_pos h, List.getElem?_cons_zero]
      · rw [if_neg h, if_neg h, List.getElem?_cons_zero]
    | succ i =>
      rw [List.getElem?_cons_succ] at hp
      rw [recycledBefore_cons_succ]
      simp only [Part002.useFrameUpdate]
      by_cases h : q.y - fallSpeed * delta < 0
      · rw [if_pos h, if_pos h, List.getElem?_cons_succ]
        have harith : k + 2 * (1 + Part002.recycledBefore fallSpeed delta qs i) =
            k + 2 + 2 * Part002.recycledBefore fallSpeed delta qs i := by ring
        rw [harith]
        exact ih (k + 2) i p hp
      · rw [if_neg h, if_neg h, List.getElem?_cons_succ]
        have harith : k + 2 * (0 + Part002.recycledBefore fallSpeed delta qs i) =
            k + 2 * Part002.recycledBefore fallSpeed delta qs i := by ring
        rw [harith]
        exact ih k i p hp

/-- Claim C2: in a frame update, exactly the particles with
`y - fallSpeed*delta < 0` are recycled; a recycled particle ends with
`y = height` exactly and `x = cos(theta)*r`, `z = sin(theta)*r` where
`theta = U₁*2π` and `r = sqrt(U₂)*(areaSize/2)` are built from the two
fresh draws `U₁, U₂` the recycling consumes (indices
`2*recycledBefore, 2*recycledBefore + 1` of the frame's draw stream —
independent of the particle's previous `x, z`); a particle with
`y - fallSpeed*delta ≥ 0` keeps its `x, z` and is not recycled. -/
theorem recycling_correctness (M : JsMath) (areaSize height fallSpeed delta : ℚ)
    (rand : ℕ → ℚ) (l : List Particle) (i : ℕ) (p : Particle)
    (hp : l[i]? = some p) :
    (Part002.useFrameUpdate M areaSize height fallSpeed delta rand 0 l)[i]? =
      some (if p.y - fallSpeed * delta < 0 then
        { x := M.cos (rand (2 * Part002.recycledBefore fallSpeed delta l i) * M.PI * 2) *
               (M.sqrt (rand (2 * Part002.recycledBefore fallSpeed delta l i + 1)) *
                 (areaSize / 2))
          y := height
          z := M.sin (rand (2 * Part002.recycledBefore fallSpeed delta l i) * M.PI * 2) *
               (M.sqrt (rand (2 * Part002.recycledBefore fallSpeed delta l i + 1)) *
                 (areaSize / 2)) }
      else { x := p.x, y := p.y - fallSpeed * delta, z := p.z }) := by
  have h := useFrameUpdate_getElem M areaSize height fallSpeed delta rand l 0 i p hp
  simpa using h

/-- Witness for C2: a single particle at `y = 1/2` falling by `1` in one
frame is recycled to `y = height = 1` with `x, z` rebuilt from the fresh
draws (with the trivial `Math` record and zero draws, `x = z = 0`),
discarding its previous `x = 5`, `z = 7`. -/
theorem recycling_correctness_witness :
    (Part002.useFrameUpdate jsMath0 2 1 1 1 (fun _ => 0) 0
      [{ x := 5, y := 1/2, z := 7 }])[0]? = some { x := 0, y := 1, z := 0 } := by
  have h := recycling_correctness jsMath0 2 1 1 1 (fun _ => 0)
    [{ x := 5, y := 1/2, z := 7 }] 0 { x := 5, y := 1/2, z := 7 } rfl
  rw [h]
  norm_num [jsMath0]

/-- Claim C9 (frame condition): a per-frame update never changes the
particle count (list length) nor the flat buffer's length, and every
particle that is not recycled in that frame keeps its `x` and `z`
unchanged, with only `y` moved to `y - fallSpeed*delta`. -/
theorem update_frame_condition (M : JsMath) (areaSize height fallSpeed delta : ℚ)
    (rand : ℕ → ℚ) (k : ℕ) (l : List Particle) :
    (Part002.useFrameUpdate M areaSize height fallSpeed delta rand k l).length
      = l.length ∧
    (Part002.toBuffer
        (Part002.useFrameUpdate M areaSize height fallSpeed delta rand k l)).length
      = (Part002.toBuffer l).length ∧
    (∀ (i : ℕ) (p : Particle), l[i]? = some p →
      ¬ (p.y - fallSpeed * delta < 0) →
      (Part002.useFrameUpdate M areaSize height fallSpeed delta rand k l)[i]? =
        some { x := p.x, y := p.y - fallSpeed * delta, z := p.z }) := by
  refine ⟨useFrameUpdate_length M areaSize height fallSpeed delta rand k l, ?_, ?_⟩
  · rw [toBuffer_length, toBuffer_length,
      useFrameUpdate_length M areaSize height fallSpeed delta rand k l]
  · intro i p hp hnr
    rw [useFrameUpdate_getElem M areaSize height fallSpeed delta rand l k i p hp,
      if_neg hnr]

/-- Witness for C9: a particle at `y = 5` falling by `1` is not recycled
and keeps `x = 1`, `z = 2` bit for bit. -/
theorem update_frame_condition_witness :
    (Part002.useFrameUpdate jsMath0 2 10 1 1 (fun _ => 0) 0
      [{ x := 1, y := 5, z := 2 }])[0]? = some { x := 1, y := 5 - 1 * 1, z := 2 } :=
  (update_frame_condition jsMath0 2 10 1 1 (fun _ => 0) 0
    [{ x := 1, y := 5, z := 2 }]).2.2 0 { x := 1, y := 5, z := 2 } rfl (by norm_num)

/-- Counterexample to claim C7: constructing a field with non-positive
dimensions (`areaSize = -1`, `height = -1`) does not fail — the
construction succeeds and a field is created (its one particle even sits
at `y = -1/2`, outside the nominal volume). -/
theorem config_validation_counterexample :
    Part002.snowFieldConstruct jsMath0 1 (-1) (-1) (fun _ => 1/2) =
      Except.ok [{ x := 0, y := -1/2, z := 0 }] := by
  rw [Part002.snowFieldConstruct, if_neg (by norm_num)]
  norm_num [Part002.positions, Part002.randomBetween, jsMath0, List.range_succ,
    Particle.mk.injEq]

/-- Claim C7 (amended): construction performs no validation at all.  For
every `count ≥ 0` (including `0`) and arbitrary `areaSize` and `height`
(including non-positive values) construction succeeds and creates the
field, whose buffer always has length `3 * count` (so a malformed length
cannot arise and is never checked); the only failing construction is a
negative `count`, which makes the typed-array allocation throw. -/
theorem construction_no_validation (M : JsMath) (count : ℤ) (areaSize height : ℚ)
    (rand : ℕ → ℚ) :
    (0 ≤ count →
      Part002.snowFieldConstruct M count areaSize height rand =
        Except.ok (Part002.positions M count.toNat areaSize height rand) ∧
      (Part002.positions M count.toNat areaSize height rand).length = count.toNat ∧
      (Part002.toBuffer (Part002.positions M count.toNat areaSize height rand)).length
        = 3 * count.toNat) ∧
    (count < 0 →
      Part002.snowFieldConstruct M count areaSize height rand =
        Except.error "RangeError: invalid typed array length") := by
  constructor
  · intro h0
    refine ⟨?_, positions_length M count.toNat areaSize height rand, ?_⟩
    · rw [Part002.snowFieldConstruct, if_neg (by omega)]
    · rw [toBuffer_length, positions_length]
  · intro hneg
    rw [Part002.snowFieldConstruct, if_pos (by omega)]

/-- Witness for the amended C7 at `count = 2`. -/
theorem construction_no_validation_witness :
    (0 : ℤ) ≤ 2 ∧
    (Part002.snowFieldConstruct jsMath0 2 40 30 (fun _ => 0) =
        Except.ok (Part002.positions jsMath0 (2 : ℤ).toNat 40 30 (fun _ => 0)) ∧
      (Part002.positions jsMath0 (2 : ℤ).toNat 40 30 (fun _ => 0)).length
        = (2 : ℤ).toNat ∧
      (Part002.toBuffer (Part002.positions jsMath0 (2 : ℤ).toNat 40 30 (fun _ => 0))).length
        = 3 * (2 : ℤ).toNat) :=
  ⟨by norm_num,
   (construction_no_validation jsMath0 2 40 30 (fun _ => 0)).1 (by norm_num)⟩

theorem recycled_xz_sq_le (M : JsMath) (radius θ u : ℚ)
    (hcos : M.cos θ ^ 2 + M.sin θ ^ 2 ≤ 1)
    (_hs0 : 0 ≤ M.sqrt u) (hs : M.sqrt u ^ 2 ≤ u) (hu1 : u ≤ 1) :
    (M.cos θ * (M.sqrt u * radius)) ^ 2 + (M.sin θ * (M.sqrt u * radius)) ^ 2
      ≤ radius ^ 2 := by
  have h1 : (M.cos θ ^ 2 + M.sin θ ^ 2) * (M.sqrt u * radius) ^ 2
      ≤ 1 * (M.sqrt u * radius) ^ 2 :=
    mul_le_mul_of_nonneg_right hcos (sq_nonneg _)
  have h2 : M.sqrt u ^ 2 * radius ^ 2 ≤ u * radius ^ 2 :=
    mul_le_mul_of_nonneg_right hs (sq_nonneg radius)
  have h3 : u * radius ^ 2 ≤ 1 * radius ^ 2 :=
    mul_le_mul_of_nonneg_right hu1 (sq_nonneg radius)
  nlinarith [h1, h2, h3]

theorem positions_inVolume (M : JsMath) (count : ℕ) (areaSize height : ℚ)
    (rand : ℕ → ℚ)
    (hcos : ∀ t, M.cos t ^ 2 + M.sin t ^ 2 ≤ 1)
    (hsqrt : ∀ u, 0 ≤ u → u < 1 → 0 ≤ M.sqrt u ∧ M.sqrt u ^ 2 ≤ u)
    (hrand : ∀ n, 0 ≤ rand n ∧ rand n < 1)
    (hh : 0 ≤ height) :
    ∀ p ∈ Part002.positions M count areaSize height rand,
      inVolume areaSize height p := by
  intro p hp
  simp only [Part002.positions, List.mem_map, List.mem_range] at hp
  obtain ⟨i, hi, rfl⟩ := hp
  obtain ⟨hu0, hu1⟩ := hrand (3 * i + 1)
  obtain ⟨hs0, hs⟩ := hsqrt _ hu0 hu1
  obtain ⟨hy0, hy1⟩ := hrand (3 * i + 2)
  refine ⟨?_, ?_, ?_⟩
  · simp only [Part002.randomBetween]
    nlinarith [mul_nonneg hy0 hh]
  · simp only [Part002.randomBetween]
    nlinarith [mul_le_of_le_one_left hh hy1.le]
  · exact recycled_xz_sq_le M (areaSize / 2) _ _ (hcos _) hs0 hs hu1.le

theorem useFrameUpdate_inVolume (M : JsMath) (areaSize height fallSpeed delta : ℚ)
    (rand : ℕ → ℚ)
    (hcos : ∀ t, M.cos t ^ 2 + M.sin t ^ 2 ≤ 1)
    (hsqrt : ∀ u, 0 ≤ u → u < 1 → 0 ≤ M.sqrt u ∧ M.sqrt u ^ 2 ≤ u)
    (hrand : ∀ n, 0 ≤ rand n ∧ rand n < 1)
    (hh : 0 ≤ height) (hfs : 0 ≤ fallSpeed) (hdt : 0 ≤ delta) :
    ∀ (k : ℕ) (l : List Particle), (∀ p ∈ l, inVolume areaSize height p) →
      ∀ p ∈ Part002.useFrameUpdate M areaSize height fallSpeed delta rand k l,
        inVolume areaSize height p := by
  intro k l
  induction l generalizing k with
  | nil =>
    intro _ p hp
    simp [Part002.useFrameUpdate] at hp
  | cons q qs ih =>
    intro hl p hp
    have hq := hl q (List.mem_cons_self q qs)
    have hqs : ∀ r ∈ qs, inVolume areaSize height r :=
      fun r hr => hl r (List.mem_cons_of_mem q hr)
    simp only [Part002.useFrameUpdate] at hp
    by_cases h : q.y - fallSpeed * delta < 0
    · rw [if_pos h] at hp
      rcases List.mem_cons.mp hp with hph | hptail
      · subst hph
        obtain ⟨hu0, hu1⟩ := hrand (k + 1)
        obtain ⟨hs0, hs⟩ := hsqrt _ hu0 hu1
        exact ⟨hh, le_refl height,
          recycled_xz_sq_le M (areaSize / 2) _ _ (hcos _) hs0 hs hu1.le⟩
      · exact ih (k + 2) hqs p hptail
    · rw [if_neg h] at hp
      rcases List.mem_cons.mp hp with hph | hptail
      · subst hph
        obtain ⟨hqy0, hqy1, hqxz⟩ := hq
        have hfd : 0 ≤ fallSpeed * delta := mul_nonneg hfs hdt
        exact ⟨le_of_not_lt h, by simpa using sub_le_self q.y hfd |>.trans hqy1, hqxz⟩
      · exact ih k hqs p hptail

/-- Claim C1: cylindrical containment.  For a field constructed with
positive `areaSize` and `height`, with every `Math.random` draw in
`[0, 1)`, `Math.cos/sin` satisfying the Pythagorean bound and `Math.sqrt`
a nonnegative square root, and with nonnegative per-frame `fallSpeed` and
elapsed `delta`, every particle of every frame state — right after
initialization and before and after every per-frame update — satisfies
`0 ≤ y ≤ height` and `x² + z² ≤ (areaSize/2)²`. -/
theorem particle_containment_invariant (M : JsMath) (count : ℕ)
    (areaSize height : ℚ) (initRand : ℕ → ℚ) (fallSpeed delta : ℕ → ℚ)
    (frameRand : ℕ → ℕ → ℚ)
    (_harea : 0 < areaSize) (hheight : 0 < height)
    (hcos : ∀ t, M.cos t ^ 2 + M.sin t ^ 2 ≤ 1)
    (hsqrt : ∀ u, 0 ≤ u → u < 1 → 0 ≤ M.sqrt u ∧ M.sqrt u ^ 2 ≤ u)
    (hinit : ∀ n, 0 ≤ initRand n ∧ initRand n < 1)
    (hframe : ∀ n j, 0 ≤ frameRand n j ∧ frameRand n j < 1)
    (hfs : ∀ n, 0 ≤ fallSpeed n) (hdt : ∀ n, 0 ≤ delta n) :
    ∀ n, ∀ p ∈ Part002.framesState M count areaSize height initRand
        fallSpeed delta frameRand n,
      0 ≤ p.y ∧ p.y ≤ height ∧ p.x ^ 2 + p.z ^ 2 ≤ (areaSize / 2) ^ 2 := by
  intro n
  induction n with
  | zero =>
    intro p hp
    exact positions_inVolume M count areaSize height initRand hcos hsqrt hinit
      hheight.le p hp
  | succ n ihn =>
    intro p hp
    rw [Part002.framesState] at hp
    exact useFrameUpdate_inVolume M areaSize height (fallSpeed n) (delta n)
      (frameRand n) hcos hsqrt (hframe n) hheight.le (hfs n) (hdt n) 0
      (Part002.framesState M count areaSize height initRand fallSpeed delta frameRand n)
      (fun r hr => ihn r hr) p hp

/-- Witness for C1: the invariant instantiated on a concrete one-particle
field (`areaSize = 2`, `height = 1`, unit fall speed and frame delta,
zero draws, trivial `Math` record). -/
theorem particle_containment_invariant_witness :
    ((0 : ℚ) < 2 ∧ (0 : ℚ) < 1) ∧
    ∀ n, ∀ p ∈ Part002.framesState jsMath0 1 2 1 (fun _ => 0) (fun _ => 1)
        (fun _ => 1) (fun _ _ => 0) n,
      0 ≤ p.y ∧ p.y ≤ 1 ∧ p.x ^ 2 + p.z ^ 2 ≤ ((2 : ℚ) / 2) ^ 2 :=
  ⟨⟨by norm_num, by norm_num⟩,
   particle_containment_invariant jsMath0 1 2 1 (fun _ => 0) (fun _ => 1)
     (fun _ => 1) (fun _ _ => 0) (by norm_num) (by norm_num)
     (fun t => by norm_num [jsMath0])
     (fun u hu0 _hu1 => ⟨by norm_num [jsMath0], by norm_num [jsMath0]; exact hu0⟩)
     (fun n => ⟨by norm_num, by norm_num⟩)
     (fun n j => ⟨by norm_num, by norm_num⟩)
     (fun n => by norm_num) (fun n => by norm_num)⟩
